import Mathlib

/-!
Verification development for the `transit-fitting` package
(`transitfit/fitter.py` and `transitfit/lightcurve.py`).

Numeric values are modelled by `ℚ`.  Transcendental library routines
(`np.sin`, `np.log`, the cube root `** (1./3)`) and the external
transit-physics capability `lc_eval` (from `transitfit/utils.py`, which is
not among the provided sources and which the design document treats as an
opaque external collaborator) are oracle fields of an environment record
`Env`; an `lc_eval` result of `none` stands for the
`InvalidParameterError` signal.  Log-probability values live in
`Option ℚ`, where `none` stands for `-np.inf` (the only non-finite value
these functions produce).
-/

set_option maxRecDepth 4000

namespace TransitFit

/-- Oracle environment: `sin`, `log`, `cbrt` stand for the numerical library
routines used by `lnprior` (`np.sin`, `np.log`, `** (1./3)`); `lc_eval` is
the external transit-physics model `lc_eval(p, t, texp)` of
`transitfit/utils.py` (opaque per the design document), returning `none`
when it signals `InvalidParameterError`. -/
structure Env where
  sin : ℚ → ℚ
  log : ℚ → ℚ
  cbrt : ℚ → ℚ
  lc_eval : List ℚ → List ℚ → ℚ → Option (List ℚ)

/-- `G = const.G.cgs.value` (fitter.py line 9), a fixed literal here. -/
def Gcgs : ℚ := 6674 / 100000000000

/-- `DAY = 86400` (fitter.py line 12). -/
def DAY : ℚ := 86400

/-- `np.pi` as the IEEE double numpy uses, as a rational literal. -/
def npPi : ℚ := 3141592653589793 / 1000000000000000

/-- Modelled from the spec: `t_folded(t, period, epoch)` lives in
`transitfit/utils.py`, which is not among the provided sources.  The spec's
glossary defines phase-folding as "mapping absolute time to
time-since-nearest-transit using period and epoch". -/
def t_folded (t period epoch : ℚ) : ℚ :=
  t - epoch - period * ((round ((t - epoch) / period) : ℤ) : ℚ)

/-- Transit-candidate descriptor (`Planet` in `lightcurve.py`): period,
epoch, duration are the constructor fields (lightcurve.py lines 14-18).
`priorPeriod` and `priorEpoch` model the `_period` and `_epoch` attributes
read by `TransitModel.lnprior` (fitter.py lines 157-160); those attributes
are not defined in the provided sources.  Modelled from the spec:
"externally supplied discovery-measurement priors (mean, uncertainty) for
that candidate" — each is a (mean, uncertainty) pair. -/
structure Planet where
  period : ℚ
  epoch : ℚ
  duration : ℚ
  priorPeriod : ℚ × ℚ
  priorEpoch : ℚ × ℚ
  deriving DecidableEq

instance : Inhabited Planet := ⟨⟨1, 0, 0, (0, 1), (0, 1)⟩⟩

/-- `Planet.t_close(t, width)` (lightcurve.py lines 24-25):
`np.absolute(self.t_folded(t)) < width*self.duration`, elementwise. -/
def Planet.t_close (pl : Planet) (t : List ℚ) (width : ℚ) : List Bool :=
  t.map (fun x => decide (|t_folded x pl.period pl.epoch| < width * pl.duration))

/-- Light-curve data container (`LightCurve` in `lightcurve.py`).
`_time`, `_flux`, `_flux_err` are the stored arrays (lines 67-69);
`_detrended_flux` the detrended flux; `mask` the validity mask
(True = excluded); `texp` the exposure time; `planets` the candidate
list. -/
structure LightCurve where
  _time : List ℚ
  _flux : List ℚ
  _detrended_flux : List ℚ
  _flux_err : List ℚ
  mask : List Bool
  texp : ℚ
  planets : List Planet
  deriving DecidableEq

/-- Boolean-mask view `xs[~mask]`: keeps entries whose mask bit is false. -/
def maskedView (xs : List ℚ) (mask : List Bool) : List ℚ :=
  (xs.zip mask).filterMap (fun tm => if tm.2 then none else some tm.1)

/-- `LightCurve.time` property (lightcurve.py lines 84-86):
`self._time[~self.mask]`. -/
def LightCurve.time (lc : LightCurve) : List ℚ :=
  maskedView lc._time lc.mask

/-- `LightCurve.t` property (lightcurve.py lines 76-78): `self.time`. -/
def LightCurve.t (lc : LightCurve) : List ℚ :=
  lc.time

/-- `LightCurve.rawflux` property (lightcurve.py lines 88-90):
`self._flux[~self.mask]`. -/
def LightCurve.rawflux (lc : LightCurve) : List ℚ :=
  maskedView lc._flux lc.mask

/-- `LightCurve.flux_err` property (lightcurve.py lines 92-94):
`self._flux_err[~self.mask]`. -/
def LightCurve.flux_err (lc : LightCurve) : List ℚ :=
  maskedView lc._flux_err lc.mask

/-- `LightCurve.flux` property (lightcurve.py lines 96-98):
`self._detrended_flux[~self.mask]`. -/
def LightCurve.flux (lc : LightCurve) : List ℚ :=
  maskedView lc._detrended_flux lc.mask

/-- `LightCurve.f` property (lightcurve.py lines 80-82): its body is
`return self.f`, i.e. the property re-enters itself.  Each unit of fuel
pays for one unfolding of the property body; the access produces a value
only if some unfolding returns one, which never happens. -/
def LightCurve.f_access (lc : LightCurve) : Nat → Option (List ℚ)
  | 0 => none
  | n + 1 => lc.f_access n

/-- `LightCurve.n_planets` property (lightcurve.py lines 107-109). -/
def LightCurve.n_planets (lc : LightCurve) : Nat :=
  lc.planets.length

/-- `LightCurve.t_close(i, width)` (lightcurve.py lines 120-123):
`self.planets[i].t_close(self.time, width=width)`. -/
def LightCurve.t_close (lc : LightCurve) (i : Nat) (width : ℚ) : List Bool :=
  (lc.planets.getD i default).t_close lc.time width

/-- Modelled from the spec: `TransitModel.evaluate` calls
`self.lc.close(i, width=...)`, a per-candidate transit-window query that is
not defined in the provided `lightcurve.py` (which defines `t_close`).  The
spec describes the query as the set of "observation indices lying near [a]
candidate's transit window (... window width configurable in duration
units)", exactly what `t_close` computes. -/
def LightCurve.close (lc : LightCurve) (i : Nat) (width : ℚ) : List Bool :=
  lc.t_close i width

/-- Posterior sample table: ordered (column name, column values) pairs. -/
abbrev DataFrame := List (String × List ℚ)

/-- Raw MCMC sampler state: only the flattened chain (rows of draws) is
read by `TransitModel._make_samples`. -/
structure Sampler where
  flatchain : List (List ℚ)
  deriving DecidableEq

/-- `TransitModel` (fitter.py lines 26-33): light curve, window width,
continuum method, and the `_bestfit` / `_samples` caches.  `sampler` models
the attribute set by `fit_emcee` (`hasattr(self, 'sampler')` is
`Option.isSome`). -/
structure TransitModel where
  lc : LightCurve
  width : ℚ
  continuum_method : String
  _bestfit : Option (List ℚ)
  _samples : Option DataFrame
  sampler : Option Sampler
  deriving DecidableEq

/-- `TransitModel.continuum(p, t)` (fitter.py lines 36-49):
`np.atleast_1d(p)[0] * np.ones_like(t)`. -/
def continuum (p : List ℚ) (t : List ℚ) : List ℚ :=
  t.map (fun _ => p.getD 0 0)

/-- `t[close]`: numpy boolean selection of the entries with a true mask
bit (lists walked in step). -/
def selectMask : List ℚ → List Bool → List ℚ
  | x :: xs, b :: bs => if b then x :: selectMask xs bs else selectMask xs bs
  | _, _ => []

/-- `f[close] = vals`: numpy boolean assignment, replacing the entries of
`f` at true mask bits by the entries of `vals` in order. -/
def scatterMask : List Bool → List ℚ → List ℚ → List ℚ
  | true :: bs, _ :: xs, v :: vs => v :: scatterMask bs xs vs
  | true :: bs, x :: xs, [] => x :: scatterMask bs xs []
  | false :: bs, x :: xs, vs => x :: scatterMask bs xs vs
  | _, [], _ => []
  | [], _ :: _, _ => []

/-- The `close` accumulator of `TransitModel.evaluate` (fitter.py lines
67-70): starts as `np.zeros_like(t).astype(bool)` and is or-ed
(`+=` on boolean arrays) with `self.lc.close(i, width=self.width)` for
each candidate `i`. -/
def anyCloseMask (lc : LightCurve) (width : ℚ) : List Bool :=
  (List.range lc.n_planets).foldl
    (fun acc i => List.zipWith or acc (lc.close i width))
    (lc.time.map (fun _ => false))

/-- `TransitModel.evaluate(p)` (fitter.py lines 51-73): continuum at all
times, overwritten on the near-transit subset by the batch result of
`lc_eval(p[1:], t[close], texp=lc.texp)`; an `InvalidParameterError`
(`none`) from `lc_eval` propagates. -/
def evaluate (env : Env) (m : TransitModel) (p : List ℚ) : Option (List ℚ) :=
  match env.lc_eval (p.drop 1) (selectMask m.lc.t (anyCloseMask m.lc m.width)) m.lc.texp with
  | none => none
  | some vals => some (scatterMask (anyCloseMask m.lc m.width) (continuum [p.getD 0 0] m.lc.t) vals)

/-- Entry `k` of candidate `i`'s parameter slice
`p[5+i*6 : 11+i*6] = [period, epoch, b, rprs, e, w]` (fitter.py line 135). -/
def pslice (p : List ℚ) (i k : Nat) : ℚ :=
  p.getD (5 + i * 6 + k) 0

/-- The `factor` of `lnprior` (fitter.py lines 137-139):
`(1 + e*sin(w)) / (1 - e*e)` when `e > 0`, else `1.0`. -/
def codeFactor (env : Env) (p : List ℚ) (i : Nat) : ℚ :=
  if 0 < pslice p i 4 then
    (1 + pslice p i 4 * env.sin (pslice p i 5)) / (1 - pslice p i 4 * pslice p i 4)
  else 1

/-- `aR = (rhostar * G * (period*DAY)**2 / (3*np.pi)) ** (1./3)`
(fitter.py line 141), with the cube root taken by the oracle. -/
def aRof (env : Env) (rhostar period : ℚ) : ℚ :=
  env.cbrt (rhostar * Gcgs * (period * DAY) ^ 2 / (3 * npPi))

/-- `arg = b * factor / aR` (fitter.py line 143). -/
def codeArg (env : Env) (p : List ℚ) (rhostar : ℚ) (i : Nat) : ℚ :=
  pslice p i 2 * codeFactor env p i / aRof env rhostar (pslice p i 0)

/-- The finite per-candidate contribution to `tot` (fitter.py lines
156-164): the period and epoch discovery-prior terms
`-0.5*(x - prior)/prior_err**2` exactly as the source writes them (the
residual is not squared), plus `np.log(1/rprs)`. -/
def planetTerm (env : Env) (p : List ℚ) (i : Nat) (pl : Planet) : ℚ :=
  -(1/2) * (pslice p i 0 - pl.priorPeriod.1) / pl.priorPeriod.2 ^ 2
    + -(1/2) * (pslice p i 1 - pl.priorEpoch.1) / pl.priorEpoch.2 ^ 2
    + env.log (1 / pslice p i 3)

/-- The per-candidate loop of `lnprior` (fitter.py lines 134-164), with the
source's early `return -np.inf` rendered as `none` short-circuiting the
rest of the fold; the checks appear in source order. -/
def priorLoop (env : Env) (p : List ℚ) (rhostar : ℚ) : Nat → List Planet → Option ℚ
  | _, [] => some 0
  | i, pl :: rest =>
    if 1 < codeArg env p rhostar i then none
    else if pslice p i 0 ≤ 0 then none
    else if ¬ (0 ≤ pslice p i 4 ∧ pslice p i 4 < 1) then none
    else if pslice p i 2 < 0 then none
    else if pslice p i 3 ≤ 0 then none
    else (priorLoop env p rhostar (i + 1) rest).map (fun tot => planetTerm env p i pl + tot)

/-- `TransitModel.lnprior(p)` (fitter.py lines 124-166).  `none` stands for
`-np.inf`. -/
def lnprior (env : Env) (m : TransitModel) (p : List ℚ) : Option ℚ :=
  if ¬ (0 ≤ p.getD 2 0 ∧ p.getD 2 0 ≤ 1 ∧ 0 ≤ p.getD 3 0 ∧ p.getD 3 0 ≤ 1) then none
  else if p.getD 1 0 < 0 then none
  else if ¬ (0 ≤ p.getD 4 0 ∧ p.getD 4 0 < 1) then none
  else priorLoop env p (p.getD 1 0) 0 m.lc.planets

/-- Elementwise term of `lnlike`'s sum (fitter.py line 122):
`-0.5 * (flux_model - flux)**2 / flux_err**2`. -/
def sqResid : List ℚ → List ℚ → List ℚ → List ℚ
  | f :: fs, o :: os, e :: es => (-(1/2) * (f - o) ^ 2 / e ^ 2) :: sqResid fs os es
  | _, _, _ => []

/-- `TransitModel.lnlike(p)` (fitter.py lines 116-122): `-np.inf` (`none`)
when `evaluate` signals `InvalidParameterError`, else the summed Gaussian
terms over the unmasked observations. -/
def lnlike (env : Env) (m : TransitModel) (p : List ℚ) : Option ℚ :=
  match evaluate env m p with
  | none => none
  | some fm => some (sqResid fm m.lc.flux m.lc.flux_err).sum

/-- Sum of two log-probability values; `none` (`-np.inf`) absorbs. -/
def addLog : Option ℚ → Option ℚ → Option ℚ
  | some a, some b => some (a + b)
  | _, _ => none

/-- `TransitModel.lnpost(p)` (fitter.py lines 108-114), abstracted over the
likelihood it may call: the prior is computed first, and the likelihood
function is consulted only on the finite-prior branch. -/
def lnpostWith (env : Env) (m : TransitModel) (like : List ℚ → Option ℚ) (p : List ℚ) : Option ℚ :=
  match lnprior env m p with
  | none => none
  | some prior => addLog (some prior) (like p)

/-- `TransitModel.lnpost(p)` proper: `lnpostWith` applied to
`TransitModel.lnlike`. -/
def lnpost (env : Env) (m : TransitModel) (p : List ℚ) : Option ℚ :=
  lnpostWith env m (lnlike env m) p

/-- Column `k` of the flattened chain: `sampler.flatchain[:, k]`
(fitter.py lines 203-216). -/
def chainCol (s : Sampler) (k : Nat) : List ℚ :=
  s.flatchain.map (fun row => row.getD k 0)

/-- The per-candidate columns added by `_make_samples` (fitter.py lines
213-216): `'{par}_{i+1}'` for `par` in
`['period', 'epoch', 'b', 'rprs', 'ecc', 'omega']` (index `j`), drawn from
chain column `5 + j + i*6`. -/
def planetCols (s : Sampler) (i : Nat) : DataFrame :=
  [("period_" ++ toString (i + 1), chainCol s (5 + 0 + i * 6)),
   ("epoch_" ++ toString (i + 1), chainCol s (5 + 1 + i * 6)),
   ("b_" ++ toString (i + 1), chainCol s (5 + 2 + i * 6)),
   ("rprs_" ++ toString (i + 1), chainCol s (5 + 3 + i * 6)),
   ("ecc_" ++ toString (i + 1), chainCol s (5 + 4 + i * 6)),
   ("omega_" ++ toString (i + 1), chainCol s (5 + 5 + i * 6))]

/-- `TransitModel._make_samples` (fitter.py lines 202-218): the table built
from the flattened chain — the five star-level columns, then the
per-candidate columns. -/
def make_samples (n : Nat) (s : Sampler) : DataFrame :=
  [("flux_zp", chainCol s 0), ("rho", chainCol s 1), ("q1", chainCol s 2),
   ("q2", chainCol s 3), ("dilution", chainCol s 4)]
    ++ ((List.range n).map (planetCols s)).flatten

/-- The `samples` property (fitter.py lines 188-200) as a state
transformer: `.error` is the `AttributeError` raised when neither a
sampler nor a cached table exists; otherwise it yields the table, the
(possibly updated) model, and a flag recording whether `_make_samples`
ran — the flag instruments the derivation count and has no Python
counterpart. -/
def samplesAcc (m : TransitModel) : Except String (DataFrame × TransitModel × Bool) :=
  match m._samples, m.sampler with
  | some df, _ => .ok (df, m, false)
  | none, some s =>
    .ok (make_samples m.lc.n_planets s,
         ⟨m.lc, m.width, m.continuum_method, m._bestfit,
          some (make_samples m.lc.n_planets s), m.sampler⟩,
         true)
  | none, none => .error "Must run MCMC (or load from file) before accessing samples"

/-- The value the `samples` property returns, ignoring the state update:
`none` when the property raises. -/
def samplesOf (m : TransitModel) : Option DataFrame :=
  match m._samples, m.sampler with
  | some df, _ => some df
  | none, some s => some (make_samples m.lc.n_planets s)
  | none, none => none

/-- What `save_hdf` stores under a path segment: the `/samples` table, the
three scalar attributes attached to it (fitter.py lines 316-320), and the
light-curve data written under the same path by `self.lc.save_hdf(...,
append=True)` (fitter.py line 324).  The light-curve saver/loader is not
among the provided sources; modelled from the spec: the observation-series
loader/saver "persists/restores the time/flux/error/mask/candidate-list
structure to the same structured tabular file ... under the same path
segment". -/
structure HEntry where
  samples : DataFrame
  width : ℚ
  continuum_method : String
  lc_type : String
  lcdata : LightCurve
  deriving DecidableEq

/-- An HDF file: ordered (path segment, stored entry) pairs. -/
abbrev HFile := List (String × HEntry)

/-- `path in store`: the path segment has an entry. -/
def lookupPath : HFile → String → Option HEntry
  | [], _ => none
  | (q, e) :: rest, path => if q = path then some e else lookupPath rest path

/-- Boolean form of `path in store`. -/
def containsPath (file : HFile) (path : String) : Bool :=
  (lookupPath file path).isSome

/-- `to_hdf`: write (create or replace) the entry at a path segment. -/
def writePath : HFile → String → HEntry → HFile
  | [], path, e => [(path, e)]
  | (q, e0) :: rest, path, e =>
    if q = path then (path, e) :: rest else (q, e0) :: writePath rest path e

/-- The errors `save_hdf` can raise: the `IOError` for a path conflict
(fitter.py line 309) and the `AttributeError` from the `samples` accessor
(fitter.py line 314 via lines 188-192). -/
inductive SaveErr where
  | conflict
  | noSamples
  deriving DecidableEq

/-- `TransitModel.save_hdf(filename, path, overwrite, append)` (fitter.py
lines 280-324).  `fs` is the target file's prior state (`none` = the file
does not exist).  The conflict policy check runs first; `overwrite`
removes the file (`os.remove`), so the write starts from an empty file.
The samples table, the three attributes and the light-curve data are then
written under `path` as one entry. -/
def save_hdf (m : TransitModel) (fs : Option HFile) (path : String)
    (overwrite append : Bool) : Except SaveErr HFile :=
  match
    (match fs with
     | some file =>
       if containsPath file path then
         if overwrite then Except.ok none
         else if append then Except.ok (some file)
         else Except.error SaveErr.conflict
       else Except.ok (some file)
     | none => Except.ok none) with
  | .error e => .error e
  | .ok base =>
    match samplesOf m with
    | none => .error .noSamples
    | some df =>
      .ok (writePath (base.getD []) path ⟨df, m.width, m.continuum_method, "LightCurve", m.lc⟩)

/-- `TransitModel.load_hdf(filename, path)` (fitter.py lines 326-359):
reads the table and attributes at `path`, reconstructs the light curve via
the stored type's loader, and returns a model with `_samples`
pre-populated. -/
def load_hdf (fs : Option HFile) (path : String) : Except String TransitModel :=
  match fs with
  | none => .error "file does not exist"
  | some file =>
    match lookupPath file path with
    | none => .error "path not in store"
    | some e => .ok ⟨e.lcdata, e.width, e.continuum_method, none, some e.samples, none⟩

/-- The spec's closed-form Gaussian summand `((model - observed)/error)^2`,
for comparison with the summand `lnlike` computes. -/
def normResid : List ℚ → List ℚ → List ℚ → List ℚ
  | f :: fs, o :: os, e :: es => ((f - o) / e) ^ 2 :: normResid fs os es
  | _, _, _ => []

/-- The per-candidate rejection conditions as the claim states them:
period ≤ 0, eccentricity outside [0,1), negative impact parameter,
radius ratio ≤ 0, or the scaled impact parameter
`b*(1 + e*sin w)/((1 - e^2)*aR)` exceeding 1. -/
def claimPlanetBad (env : Env) (p : List ℚ) (rhostar : ℚ) (i : Nat) : Prop :=
  pslice p i 0 ≤ 0
  ∨ ¬ (0 ≤ pslice p i 4 ∧ pslice p i 4 < 1)
  ∨ pslice p i 2 < 0
  ∨ pslice p i 3 ≤ 0
  ∨ 1 < pslice p i 2 * (1 + pslice p i 4 * env.sin (pslice p i 5))
        / ((1 - pslice p i 4 * pslice p i 4) * aRof env rhostar (pslice p i 0))

/-- Concrete oracle environment for evaluations: zero transcendentals, unit
cube root, and a transit model returning zero flux at each requested
time. -/
def exEnv : Env :=
  ⟨fun _ => 0, fun _ => 0, fun _ => 1, fun _ ts _ => some (ts.map (fun _ => 0))⟩

/-- Concrete oracle environment whose transit model always signals
`InvalidParameterError`. -/
def exEnvN : Env :=
  ⟨fun _ => 0, fun _ => 0, fun _ => 1, fun _ _ _ => none⟩

/-- Concrete candidate: period 3, epoch 1/2, duration 1/10, discovery
priors (3, 1/100) and (1/2, 1/100). -/
def exPlanet1 : Planet := ⟨3, 1/2, 1/10, (3, 1/100), (1/2, 1/100)⟩

/-- Concrete candidate: period 2, epoch 0, duration 1/10. -/
def exPlanet2 : Planet := ⟨2, 0, 1/10, (2, 1), (0, 1)⟩

/-- Concrete two-point light curve hosting `exPlanet1`. -/
def exLc1 : LightCurve :=
  ⟨[0, 1], [1, 1], [1, 1], [1/100, 1/100], [false, false], 1/48, [exPlanet1]⟩

/-- Concrete two-point light curve hosting `exPlanet2`; its first time lies
inside the transit window, its second does not. -/
def exLc2 : LightCurve :=
  ⟨[0, 1], [1, 1], [1, 99/100], [1/100, 1/100], [false, false], 1/48, [exPlanet2]⟩

/-- Fresh model over `exLc1` (no fit run, no cache). -/
def exM1 : TransitModel := ⟨exLc1, 2, "constant", none, none, none⟩

/-- Fresh model over `exLc2`. -/
def exM2 : TransitModel := ⟨exLc2, 2, "constant", none, none, none⟩

/-- Valid parameter vector for `exM1` (its prior passes every check). -/
def exPGood : List ℚ := [1, 1, 1/2, 1/2, 0, 3, 1/2, 0, 1, 0, 0]

/-- Parameter vector with limb-darkening coefficient `q1 = 2` outside
[0,1]. -/
def exPBad : List ℚ := [1, 1, 2, 1/2, 0, 3, 1/2, 0, 1, 0, 0]

/-- Valid parameter vector whose period exceeds `exPlanet1`'s prior mean by
one prior standard deviation. -/
def exPbug : List ℚ := [1, 1, 1/2, 1/2, 0, 3 + 1/100, 1/2, 0, 1, 0, 0]

/-- Valid parameter vector for `exM2`. -/
def exPEval : List ℚ := [1, 1, 1/2, 1/2, 0, 2, 0, 0, 1, 0, 0]

/-- Concrete posterior sample table. -/
def exDf : DataFrame := [("flux_zp", [1, 2])]

/-- Concrete HDF file with an entry at path segment `"a"`. -/
def exFile : HFile := [("a", ⟨exDf, 2, "constant", "LightCurve", exLc1⟩)]

/-- Concrete sampler state: one draw of the 11 parameters. -/
def exSampler : Sampler := ⟨[[1, 2, 3, 4, 5, 6, 7, 8, 9, 10, 11]]⟩

/-- Model that has run MCMC (sampler set, cache empty). -/
def exMrun : TransitModel := ⟨exLc1, 2, "constant", none, none, some exSampler⟩

/-- Model with a populated posterior sample table. -/
def exMsamp : TransitModel := ⟨exLc1, 2, "constant", none, some exDf, none⟩

/-- C1: when `lnprior(p)` is non-finite (`none`, standing for `-inf`),
`lnpost(p)` returns that prior value whatever likelihood function the
model would use — the likelihood is never consulted; when `lnprior(p)` is
finite, `lnpost(p)` is `lnprior(p) + lnlike(p)`. -/
theorem c1_lnpost_short_circuit (env : Env) (m : TransitModel) (p : List ℚ) :
    (lnprior env m p = none →
      ∀ like : List ℚ → Option ℚ, lnpostWith env m like p = lnprior env m p)
    ∧ (∀ r : ℚ, lnprior env m p = some r →
        lnpost env m p = addLog (lnprior env m p) (lnlike env m p)) := by
  constructor
  · intro h like
    simp [lnpostWith, h]
  · intro r h
    simp [lnpost, lnpostWith, h]

/-- Witness for C1: at `exPBad` the prior is `-inf` and `lnpost` ignores an
arbitrary likelihood; at `exPGood` the prior is finite and `lnpost` is the
sum. -/
theorem c1_witness :
    lnprior exEnv exM1 exPBad = none
    ∧ lnpostWith exEnv exM1 (fun _ => some 7) exPBad = none
    ∧ lnprior exEnv exM1 exPGood = some 0
    ∧ lnpost exEnv exM1 exPGood = addLog (lnprior exEnv exM1 exPGood) (lnlike exEnv exM1 exPGood) := by
  have h1 : lnprior exEnv exM1 exPBad = none := by
    norm_num [lnprior, priorLoop, planetTerm, codeArg, codeFactor, aRof, pslice, exEnv,
      exM1, exLc1, exPlanet1, exPBad, Gcgs, DAY, npPi]
  have h2 : lnprior exEnv exM1 exPGood = some 0 := by
    norm_num [lnprior, priorLoop, planetTerm, codeArg, codeFactor, aRof, pslice, exEnv,
      exM1, exLc1, exPlanet1, exPGood, Gcgs, DAY, npPi]
  refine ⟨h1, ?_, h2, (c1_lnpost_short_circuit exEnv exM1 exPGood).2 0 h2⟩
  have := (c1_lnpost_short_circuit exEnv exM1 exPBad).1 h1 (fun _ => some 7)
  rw [this, h1]

/-- C8: on a model with no sampler state and no cached table, the `samples`
accessor raises the missing-results `AttributeError`. -/
theorem c8_samples_before_run (m : TransitModel)
    (h1 : m.sampler = none) (h2 : m._samples = none) :
    samplesAcc m = .error "Must run MCMC (or load from file) before accessing samples" := by
  simp [samplesAcc, h1, h2]

/-- Witness for C8: the fresh model `exM1`. -/
theorem c8_witness :
    samplesAcc exM1 = .error "Must run MCMC (or load from file) before accessing samples" :=
  c8_samples_before_run exM1 rfl rfl

/-- C9: after a sampling run (sampler set, cache empty) the first `samples`
access derives the table from the flattened chain and caches it, and the
second access returns the same table from the cache without deriving
again (the instrumentation flag is `false` and the state is unchanged). -/
theorem c9_samples_cached (m : TransitModel) (s : Sampler)
    (hs : m.sampler = some s) (h0 : m._samples = none) :
    ∃ d m2, samplesAcc m = .ok (d, m2, true)
      ∧ d = make_samples m.lc.n_planets s
      ∧ m2._samples = some d
      ∧ samplesAcc m2 = .ok (d, m2, false) := by
  refine ⟨make_samples m.lc.n_planets s,
    ⟨m.lc, m.width, m.continuum_method, m._bestfit,
     some (make_samples m.lc.n_planets s), m.sampler⟩, ?_, rfl, rfl, ?_⟩
  · simp [samplesAcc, hs, h0]
  · simp [samplesAcc]

/-- Witness for C9: the post-run model `exMrun`. -/
theorem c9_witness :
    ∃ d m2, samplesAcc exMrun = .ok (d, m2, true)
      ∧ d = make_samples exMrun.lc.n_planets exSampler
      ∧ m2._samples = some d
      ∧ samplesAcc m2 = .ok (d, m2, false) :=
  c9_samples_cached exMrun exSampler rfl rfl

/-- C10: the `LightCurve.f` property returns `self.f`, so its evaluation
never produces a value for any amount of unfolding fuel — unlike the other
public accessors, which return the unmasked subsets of their stored
series. -/
theorem c10_f_property_diverges (lc : LightCurve) :
    (∀ n : Nat, lc.f_access n = none)
    ∧ lc.time = maskedView lc._time lc.mask
    ∧ lc.flux = maskedView lc._detrended_flux lc.mask
    ∧ lc.rawflux = maskedView lc._flux lc.mask
    ∧ lc.flux_err = maskedView lc._flux_err lc.mask := by
  refine ⟨?_, rfl, rfl, rfl, rfl⟩
  intro n
  induction n with
  | zero => rfl
  | succ k ih => simpa [LightCurve.f_access] using ih

/-- When the eccentricity entry lies in `[0, 1)`, the `arg` the source
computes (`b * factor / aR`) equals the claim's scaled impact parameter
`b * (1 + e*sin w) / ((1 - e^2) * aR)`. -/
theorem codeArg_eq_claim (env : Env) (p : List ℚ) (rhostar : ℚ) (i : Nat)
    (h0 : 0 ≤ pslice p i 4) :
    codeArg env p rhostar i
      = pslice p i 2 * (1 + pslice p i 4 * env.sin (pslice p i 5))
          / ((1 - pslice p i 4 * pslice p i 4) * aRof env rhostar (pslice p i 0)) := by
  unfold codeArg codeFactor
  by_cases he : 0 < pslice p i 4
  · rw [if_pos he, ← mul_div_assoc, div_div]
  · rw [if_neg he]
    have hz : pslice p i 4 = 0 := le_antisymm (not_lt.mp he) h0
    rw [hz]
    ring_nf

/-- A candidate satisfying any of the claim's rejection conditions fails at
least one of the source's sequential checks. -/
theorem claimPlanetBad_code (env : Env) (p : List ℚ) (rhostar : ℚ) (i : Nat)
    (h : claimPlanetBad env p rhostar i) :
    1 < codeArg env p rhostar i ∨ pslice p i 0 ≤ 0
      ∨ ¬ (0 ≤ pslice p i 4 ∧ pslice p i 4 < 1)
      ∨ pslice p i 2 < 0 ∨ pslice p i 3 ≤ 0 := by
  rcases h with h | h | h | h | h
  · exact Or.inr (Or.inl h)
  · exact Or.inr (Or.inr (Or.inl h))
  · exact Or.inr (Or.inr (Or.inr (Or.inl h)))
  · exact Or.inr (Or.inr (Or.inr (Or.inr h)))
  · by_cases he : 0 ≤ pslice p i 4 ∧ pslice p i 4 < 1
    · exact Or.inl (by rw [codeArg_eq_claim env p rhostar i he.1]; exact h)
    · exact Or.inr (Or.inr (Or.inl he))

/-- If any of the source's per-candidate checks fails at the head
candidate, the prior loop returns `-inf`. -/
theorem priorLoop_cons_none (env : Env) (p : List ℚ) (rhostar : ℚ) (i : Nat)
    (pl : Planet) (rest : List Planet)
    (h : 1 < codeArg env p rhostar i ∨ pslice p i 0 ≤ 0
      ∨ ¬ (0 ≤ pslice p i 4 ∧ pslice p i 4 < 1)
      ∨ pslice p i 2 < 0 ∨ pslice p i 3 ≤ 0) :
    priorLoop env p rhostar i (pl :: rest) = none := by
  simp only [priorLoop]
  split_ifs with h1 h2 h3 h4 h5
  any_goals rfl
  tauto

/-- If any candidate in the remaining list satisfies the claim's rejection
conditions, the prior loop returns `-inf`. -/
theorem priorLoop_reject (env : Env) (p : List ℚ) (rhostar : ℚ) (pls : List Planet) :
    ∀ i0 : Nat, (∃ k, k < pls.length ∧ claimPlanetBad env p rhostar (i0 + k)) →
      priorLoop env p rhostar i0 pls = none := by
  induction pls with
  | nil =>
    intro i0 h
    obtain ⟨k, hk, -⟩ := h
    exact absurd hk (by simp)
  | cons pl rest ih =>
    intro i0 h
    obtain ⟨k, hk, hbad⟩ := h
    cases k with
    | zero =>
      exact priorLoop_cons_none env p rhostar i0 pl rest
        (claimPlanetBad_code env p rhostar i0 (by simpa using hbad))
    | succ k2 =>
      simp only [priorLoop]
      split_ifs
      any_goals rfl
      have heq : i0 + (k2 + 1) = (i0 + 1) + k2 := by omega
      rw [heq] at hbad
      rw [ih (i0 + 1) ⟨k2, by simpa using Nat.lt_of_succ_lt_succ hk, hbad⟩]
      rfl

/-- C3: `lnprior` returns `-inf` (`none`) whenever any limb-darkening
coefficient is outside [0,1], the stellar density is negative, the
dilution is outside [0,1), or any candidate has period ≤ 0, eccentricity
outside [0,1), a negative impact parameter, radius ratio ≤ 0, or a scaled
impact parameter `b*(1 + e*sin w)/((1 - e^2)*aR)` exceeding 1. -/
theorem c3_lnprior_rejects (env : Env) (m : TransitModel) (p : List ℚ)
    (h : ¬ (0 ≤ p.getD 2 0 ∧ p.getD 2 0 ≤ 1)
      ∨ ¬ (0 ≤ p.getD 3 0 ∧ p.getD 3 0 ≤ 1)
      ∨ p.getD 1 0 < 0
      ∨ ¬ (0 ≤ p.getD 4 0 ∧ p.getD 4 0 < 1)
      ∨ ∃ i, i < m.lc.n_planets ∧ claimPlanetBad env p (p.getD 1 0) i) :
    lnprior env m p = none := by
  unfold lnprior
  by_cases h1 : 0 ≤ p.getD 2 0 ∧ p.getD 2 0 ≤ 1 ∧ 0 ≤ p.getD 3 0 ∧ p.getD 3 0 ≤ 1
  case neg => rw [if_pos h1]
  rw [if_neg (not_not_intro h1)]
  by_cases h2 : p.getD 1 0 < 0
  case pos => rw [if_pos h2]
  rw [if_neg h2]
  by_cases h3 : 0 ≤ p.getD 4 0 ∧ p.getD 4 0 < 1
  case neg => rw [if_pos h3]
  rw [if_neg (not_not_intro h3)]
  have hex : ∃ i, i < m.lc.n_planets ∧ claimPlanetBad env p (p.getD 1 0) i := by
    rcases h with h | h | h | h | hx
    · exact absurd ⟨h1.1, h1.2.1⟩ h
    · exact absurd ⟨h1.2.2.1, h1.2.2.2⟩ h
    · exact absurd h h2
    · exact absurd h3 h
    · exact hx
  obtain ⟨i, hi, hbad⟩ := hex
  exact priorLoop_reject env p (p.getD 1 0) m.lc.planets 0 ⟨i, hi, by simpa using hbad⟩

/-- Witness for C3: `exPBad` has `q1 = 2`, outside [0,1]. -/
theorem c3_witness : lnprior exEnv exM1 exPBad = none :=
  c3_lnprior_rejects exEnv exM1 exPBad (Or.inl (by norm_num [exPBad]))

/-- C4: the source's discovery-prior contribution is
`-0.5*(period - prior_p)/prior_p_err**2` — the residual is not squared —
so `lnprior` is not the claimed Gaussian sum.  At `exPbug` (period one
prior standard deviation above the prior mean, all other terms zero) the
code returns `-50` where the claimed sum
`-1/2*((period - prior_p)/prior_p_err)^2 + (epoch term) + (-log rprs)`
is `-1/2`. -/
theorem c4_period_prior_not_gaussian :
    lnprior exEnv exM1 exPbug = some (-50)
    ∧ -(1/2 : ℚ) * ((exPbug.getD 5 0 - exPlanet1.priorPeriod.1) / exPlanet1.priorPeriod.2) ^ 2
        + -(1/2 : ℚ) * ((exPbug.getD 6 0 - exPlanet1.priorEpoch.1) / exPlanet1.priorEpoch.2) ^ 2
        + -(exEnv.log (exPbug.getD 8 0)) = -(1/2)
    ∧ ((-50 : ℚ)) ≠ -(1/2) := by
  refine ⟨?_, by norm_num [exPbug, exPlanet1, exEnv], by norm_num⟩
  norm_num [lnprior, priorLoop, planetTerm, codeArg, codeFactor, aRof, pslice, exEnv,
    exM1, exLc1, exPlanet1, exPbug, Gcgs, DAY, npPi]

/-- The summands of `lnlike` total `-1/2` times the claim's closed-form
Gaussian sum. -/
theorem sqResid_sum (a b c : List ℚ) :
    (sqResid a b c).sum = -(1/2) * (normResid a b c).sum := by
  induction a generalizing b c with
  | nil => simp [sqResid, normResid]
  | cons f fs ih =>
    cases b with
    | nil => simp [sqResid, normResid]
    | cons o os =>
      cases c with
      | nil => simp [sqResid, normResid]
      | cons e es =>
        simp only [sqResid, normResid, List.sum_cons, ih, div_pow]
        ring

/-- C5: when the flux-model evaluation signals invalid parameters,
`lnlike` returns `-inf` (`none`), absorbing the signal; otherwise it is
finite and equals `-1/2` times the sum of squared normalized residuals of
`evaluate`'s output against the unmasked observations. -/
theorem c5_lnlike_gaussian (env : Env) (m : TransitModel) (p : List ℚ) :
    (evaluate env m p = none → lnlike env m p = none)
    ∧ (∀ fm, evaluate env m p = some fm →
        lnlike env m p = some (-(1/2) * (normResid fm m.lc.flux m.lc.flux_err).sum)) := by
  constructor
  · intro h
    simp [lnlike, h]
  · intro fm h
    simp [lnlike, h, sqResid_sum]

/-- The unmasked times of the concrete light curve `exLc2`. -/
theorem exM2_t : exM2.lc.t = [0, 1] := rfl

/-- The near-transit mask of the concrete model `exM2`: the first time is
inside `exPlanet2`'s window, the second is not. -/
theorem exM2_mask : anyCloseMask exM2.lc exM2.width = [true, false] := by
  have h1 : t_folded 0 2 0 = 0 := by
    unfold t_folded
    norm_num
  have h2 : t_folded 1 2 0 = -1 := by
    unfold t_folded
    rw [round_eq]
    norm_num
  show List.zipWith or [false, false]
      [decide (|t_folded 0 2 0| < 2 * (1/10 : ℚ)),
       decide (|t_folded 1 2 0| < 2 * (1/10 : ℚ))] = [true, false]
  rw [h1, h2]
  norm_num

/-- Under `exEnv` the concrete model's flux evaluates to the transit value
0 at the near-transit time and the continuum 1 elsewhere. -/
theorem exM2_evaluate : evaluate exEnv exM2 exPEval = some [0, 1] := by
  have hsel : selectMask exM2.lc.t (anyCloseMask exM2.lc exM2.width) = [0] := by
    rw [exM2_t, exM2_mask]
    rfl
  unfold evaluate
  rw [hsel, exM2_mask, exM2_t]
  rfl

/-- Witness for C5: under `exEnvN` the transit model signals invalid
parameters and `lnlike` is `-inf`; under `exEnv` the model evaluates to
`[0, 1]` and `lnlike` is the finite Gaussian sum. -/
theorem c5_witness :
    evaluate exEnvN exM2 exPEval = none
    ∧ lnlike exEnvN exM2 exPEval = none
    ∧ evaluate exEnv exM2 exPEval = some [0, 1]
    ∧ lnlike exEnv exM2 exPEval
        = some (-(1/2) * (normResid [0, 1] exM2.lc.flux exM2.lc.flux_err).sum) := by
  have h1 : evaluate exEnvN exM2 exPEval = none := by
    norm_num [evaluate, exEnvN]
  exact ⟨h1, (c5_lnlike_gaussian exEnvN exM2 exPEval).1 h1, exM2_evaluate,
    (c5_lnlike_gaussian exEnv exM2 exPEval).2 [0, 1] exM2_evaluate⟩

/-- Writing an entry at a path segment makes it the entry found there. -/
theorem lookupPath_writePath (f : HFile) (path : String) (e : HEntry) :
    lookupPath (writePath f path e) path = some e := by
  induction f with
  | nil => simp [writePath, lookupPath]
  | cons pe rest ih =>
    obtain ⟨q, e0⟩ := pe
    by_cases h : q = path
    · simp [writePath, lookupPath, h]
    · simp [writePath, lookupPath, h, ih]

/-- C6: for a model with a populated posterior sample table, a successful
`save_hdf` followed by `load_hdf` at the same file and path yields a model
whose samples table and configuration scalars (window width, continuum
method) equal the saved ones. -/
theorem c6_save_load_round_trip (m : TransitModel) (fs : Option HFile) (path : String)
    (ov ap : Bool) (df : DataFrame) (file2 : HFile)
    (hdf : m._samples = some df)
    (hsave : save_hdf m fs path ov ap = .ok file2) :
    ∃ m2, load_hdf (some file2) path = .ok m2
      ∧ m2._samples = some df
      ∧ m2.width = m.width
      ∧ m2.continuum_method = m.continuum_method
      ∧ m2.lc = m.lc := by
  have hso : samplesOf m = some df := by
    simp [samplesOf, hdf]
  have hfile : ∃ base : Option HFile,
      file2 = writePath (base.getD []) path ⟨df, m.width, m.continuum_method, "LightCurve", m.lc⟩ := by
    cases fs with
    | none =>
      simp [save_hdf, hso] at hsave
      exact ⟨none, hsave.symm⟩
    | some file =>
      by_cases hc : containsPath file path
      · cases ov with
        | true =>
          simp [save_hdf, hc, hso] at hsave
          exact ⟨none, hsave.symm⟩
        | false =>
          cases ap with
          | true =>
            simp [save_hdf, hc, hso] at hsave
            exact ⟨some file, hsave.symm⟩
          | false =>
            simp [save_hdf, hc] at hsave
      · simp [save_hdf, hc, hso] at hsave
        exact ⟨some file, hsave.symm⟩
  obtain ⟨base, rfl⟩ := hfile
  refine ⟨⟨m.lc, m.width, m.continuum_method, none, some df, none⟩, ?_, rfl, rfl, rfl, rfl⟩
  simp [load_hdf, lookupPath_writePath]

/-- Witness for C6: saving `exMsamp` into a fresh file and loading it
back. -/
theorem c6_witness :
    exMsamp._samples = some exDf
    ∧ save_hdf exMsamp none "" false false
        = .ok [("", ⟨exDf, 2, "constant", "LightCurve", exLc1⟩)]
    ∧ ∃ m2, load_hdf (some [("", ⟨exDf, 2, "constant", "LightCurve", exLc1⟩)]) "" = .ok m2
        ∧ m2._samples = some exDf
        ∧ m2.width = exMsamp.width
        ∧ m2.continuum_method = exMsamp.continuum_method
        ∧ m2.lc = exMsamp.lc := by
  refine ⟨rfl, rfl, ?_⟩
  exact c6_save_load_round_trip exMsamp none "" false false exDf _ rfl rfl

/-- C7: `save_hdf` raises the persistence-conflict `IOError` exactly when
the target file exists, the path segment already exists in it, and neither
`overwrite` nor `append` is requested; with `overwrite` requested on an
existing path and a populated samples table, the existing file is removed
first and the save succeeds, the result holding exactly the new entry. -/
theorem c7_save_conflict (m : TransitModel) (fs : Option HFile) (path : String) (ov ap : Bool) :
    (save_hdf m fs path ov ap = .error .conflict
      ↔ ∃ file, fs = some file ∧ containsPath file path = true ∧ ov = false ∧ ap = false)
    ∧ (∀ file df, fs = some file → containsPath file path = true → samplesOf m = some df →
        save_hdf m (some file) path true ap
          = .ok [(path, ⟨df, m.width, m.continuum_method, "LightCurve", m.lc⟩)]) := by
  constructor
  · constructor
    · intro he
      cases fs with
      | none =>
        cases hso : samplesOf m with
        | none => simp [save_hdf, hso] at he
        | some df => simp [save_hdf, hso] at he
      | some file =>
        by_cases hc : containsPath file path
        · cases ov with
          | true =>
            cases hso : samplesOf m with
            | none => simp [save_hdf, hc, hso] at he
            | some df => simp [save_hdf, hc, hso] at he
          | false =>
            cases ap with
            | true =>
              cases hso : samplesOf m with
              | none => simp [save_hdf, hc, hso] at he
              | some df => simp [save_hdf, hc, hso] at he
            | false => exact ⟨file, rfl, by simpa using hc, rfl, rfl⟩
        · cases hso : samplesOf m with
          | none => simp [save_hdf, hc, hso] at he
          | some df => simp [save_hdf, hc, hso] at he
    · intro hcond
      obtain ⟨file, rfl, hc, rfl, rfl⟩ := hcond
      simp [save_hdf, hc]
  · intro file df hfs hc hso
    simp [save_hdf, hc, hso, writePath]

/-- Witness for C7: saving to the existing path segment `"a"` of `exFile`
without a policy raises the conflict error; with `overwrite` it succeeds
and the file holds exactly the new entry. -/
theorem c7_witness :
    save_hdf exMsamp (some exFile) "a" false false = .error .conflict
    ∧ save_hdf exMsamp (some exFile) "a" true false
        = .ok [("a", ⟨exDf, exMsamp.width, exMsamp.continuum_method, "LightCurve", exMsamp.lc⟩)] := by
  constructor
  · exact (c7_save_conflict exMsamp (some exFile) "a" false false).1.mpr
      ⟨exFile, rfl, rfl, rfl, rfl⟩
  · exact (c7_save_conflict exMsamp (some exFile) "a" true false).2 exFile exDf rfl rfl rfl

/-- The `t` accessor is the `time` accessor. -/
theorem t_def (lc : LightCurve) : lc.t = lc.time := rfl

/-- Boolean selection keeps as many entries as the mask has true bits. -/
theorem selectMask_length (xs : List ℚ) (bs : List Bool) (h : xs.length = bs.length) :
    (selectMask xs bs).length = bs.count true := by
  induction xs generalizing bs with
  | nil =>
    cases bs with
    | nil => simp [selectMask]
    | cons b bs => simp at h
  | cons x xs ih =>
    cases bs with
    | nil => simp at h
    | cons b bs =>
      cases b with
      | true => simp [selectMask, List.count_cons, ih bs (by simpa using h)]
      | false => simp [selectMask, List.count_cons, ih bs (by simpa using h)]

/-- Boolean assignment preserves the length of the assigned array. -/
theorem scatterMask_length (bs : List Bool) (xs vs : List ℚ) (h : bs.length = xs.length) :
    (scatterMask bs xs vs).length = xs.length := by
  induction bs generalizing xs vs with
  | nil =>
    cases xs with
    | nil => simp [scatterMask]
    | cons x xs => simp at h
  | cons b bs ih =>
    cases xs with
    | nil => simp at h
    | cons x xs =>
      cases b with
      | true =>
        cases vs with
        | nil => simp [scatterMask, ih xs [] (by simpa using h)]
        | cons v vs => simp [scatterMask, ih xs vs (by simpa using h)]
      | false => simp [scatterMask, ih xs vs (by simpa using h)]

/-- Entry `j` of a boolean assignment: the next unconsumed replacement
value where the mask is true (its position is the number of true bits
before `j`), the original entry elsewhere. -/
theorem scatterMask_getD (bs : List Bool) (xs vs : List ℚ) (j : Nat)
    (h : bs.length = xs.length) (hv : vs.length = bs.count true) :
    (scatterMask bs xs vs).getD j 0
      = if bs.getD j false then vs.getD ((bs.take j).count true) 0 else xs.getD j 0 := by
  induction bs generalizing xs vs j with
  | nil =>
    cases xs with
    | nil => simp [scatterMask]
    | cons x xs => simp at h
  | cons b bs ih =>
    cases xs with
    | nil => simp at h
    | cons x xs =>
      cases b with
      | true =>
        cases vs with
        | nil =>
          exfalso
          simp [List.count_cons] at hv
        | cons v vs =>
          cases j with
          | zero => simp [scatterMask]
          | succ j =>
            have h2 : bs.length = xs.length := by simpa using h
            have hv2 : vs.length = bs.count true := by
              simp [List.count_cons] at hv
              omega
            simp only [scatterMask, List.getD_cons_succ, List.take_succ_cons,
              List.count_cons, beq_self_eq_true, if_true]
            simpa using ih xs vs j h2 hv2
      | false =>
        cases j with
        | zero => simp [scatterMask]
        | succ j =>
          have h2 : bs.length = xs.length := by simpa using h
          have hv2 : vs.length = bs.count true := by simpa [List.count_cons] using hv
          simp only [scatterMask, List.getD_cons_succ, List.take_succ_cons,
            List.count_cons]
          simpa using ih xs vs j h2 hv2

/-- Entry `j` of an elementwise-or of equal-length masks. -/
theorem getD_zipWith_or (a b : List Bool) (h : a.length = b.length) :
    ∀ j, (List.zipWith or a b).getD j false = (a.getD j false || b.getD j false) := by
  induction a generalizing b with
  | nil =>
    cases b with
    | nil => intro j; simp
    | cons y ys => simp at h
  | cons x xs ih =>
    cases b with
    | nil => simp at h
    | cons y ys =>
      intro j
      cases j with
      | zero => simp
      | succ j => simpa using ih ys (by simpa using h) j

/-- A constant-false map has no true entry. -/
theorem getD_map_false (xs : List ℚ) (j : Nat) :
    (xs.map (fun _ => false)).getD j false = false := by
  induction xs generalizing j with
  | nil => simp
  | cons x xs ih =>
    cases j with
    | zero => simp
    | succ j => simp [ih j]

/-- Entry `j` of a mapped list, for an in-range index. -/
theorem getD_map_lt {β : Type} (g : ℚ → β) (d : β) (xs : List ℚ) (j : Nat)
    (hj : j < xs.length) :
    (xs.map g).getD j d = g (xs.getD j 0) := by
  induction xs generalizing j with
  | nil => simp at hj
  | cons x xs ih =>
    cases j with
    | zero => simp
    | succ j => simpa using ih j (by simpa using hj)

/-- A per-candidate window mask has one bit per unmasked observation. -/
theorem close_length (lc : LightCurve) (i : Nat) (width : ℚ) :
    (lc.close i width).length = lc.time.length := by
  simp [LightCurve.close, LightCurve.t_close, Planet.t_close]

/-- Entry `j` of a per-candidate window mask decides whether time `j` lies
within `width` durations of that candidate's transit. -/
theorem close_getD (lc : LightCurve) (i : Nat) (width : ℚ) (j : Nat)
    (hj : j < lc.time.length) :
    (lc.close i width).getD j false
      = decide (|t_folded (lc.time.getD j 0) (lc.planets.getD i default).period
            (lc.planets.getD i default).epoch|
          < width * (lc.planets.getD i default).duration) :=
  getD_map_lt _ _ lc.time j hj

/-- The or-accumulating fold building the `close` mask: its length is the
number of unmasked observations and its entries are the disjunction of the
accumulator with the per-candidate masks. -/
theorem anyCloseMask_fold (lc : LightCurve) (width : ℚ) :
    ∀ (l : List Nat) (acc : List Bool), acc.length = lc.time.length →
      ((l.foldl (fun a i => List.zipWith or a (lc.close i width)) acc).length = lc.time.length
      ∧ ∀ j, (l.foldl (fun a i => List.zipWith or a (lc.close i width)) acc).getD j false
          = (acc.getD j false || l.any (fun i => (lc.close i width).getD j false))) := by
  intro l
  induction l with
  | nil =>
    intro acc h
    exact ⟨h, fun j => by simp⟩
  | cons i rest ih =>
    intro acc h
    have hzl : (List.zipWith or acc (lc.close i width)).length = lc.time.length := by
      rw [List.length_zipWith, h, close_length]
      simp
    obtain ⟨h1, h2⟩ := ih (List.zipWith or acc (lc.close i width)) hzl
    refine ⟨by simpa using h1, fun j => ?_⟩
    have h3 := h2 j
    simp only [List.foldl_cons] at *
    rw [h3, getD_zipWith_or acc (lc.close i width) (by rw [h, close_length]) j]
    simp [Bool.or_assoc]

/-- The accumulated `close` mask has one bit per unmasked observation. -/
theorem anyCloseMask_length (lc : LightCurve) (width : ℚ) :
    (anyCloseMask lc width).length = lc.time.length := by
  have h := (anyCloseMask_fold lc width (List.range lc.n_planets)
    (lc.time.map (fun _ => false)) (by simp)).1
  simpa [anyCloseMask] using h

/-- Entry `j` of the accumulated `close` mask is the disjunction of the
per-candidate window masks at `j`. -/
theorem anyCloseMask_getD (lc : LightCurve) (width : ℚ) (j : Nat) :
    (anyCloseMask lc width).getD j false
      = (List.range lc.n_planets).any (fun i => (lc.close i width).getD j false) := by
  have h := (anyCloseMask_fold lc width (List.range lc.n_planets)
    (lc.time.map (fun _ => false)) (by simp)).2 j
  simpa [anyCloseMask, getD_map_false] using h

/-- C2: for a full-length parameter vector, when the external transit model
answers the batch call on exactly the near-transit times with the
parameter slice `p[1:]` and the exposure time, `evaluate` returns an array
over all unmasked observations equal to the flux zero-point `p[0]`
everywhere except the near-transit indices, which carry the batch outputs
in order; an index is near-transit exactly when its time lies within
`width` durations of some candidate's transit. -/
theorem c2_evaluate_transit_windows (env : Env) (m : TransitModel) (p : List ℚ) (vals : List ℚ)
    (_hp : p.length = 5 + 6 * m.lc.n_planets)
    (hev : env.lc_eval (p.drop 1) (selectMask m.lc.time (anyCloseMask m.lc m.width)) m.lc.texp
        = some vals)
    (hlen : vals.length = (selectMask m.lc.time (anyCloseMask m.lc m.width)).length) :
    ∃ out, evaluate env m p = some out
      ∧ out.length = m.lc.time.length
      ∧ (∀ j, j < m.lc.time.length →
          out.getD j 0 = if (anyCloseMask m.lc m.width).getD j false
            then vals.getD (((anyCloseMask m.lc m.width).take j).count true) 0
            else p.getD 0 0)
      ∧ (∀ j, j < m.lc.time.length →
          ((anyCloseMask m.lc m.width).getD j false = true
            ↔ ∃ i, i < m.lc.n_planets
                ∧ |t_folded (m.lc.time.getD j 0) (m.lc.planets.getD i default).period
                      (m.lc.planets.getD i default).epoch|
                  < m.width * (m.lc.planets.getD i default).duration)) := by
  have hml : (anyCloseMask m.lc m.width).length = m.lc.time.length :=
    anyCloseMask_length m.lc m.width
  have hcl : (continuum [p.getD 0 0] m.lc.time).length = m.lc.time.length := by
    simp [continuum]
  have hvc : vals.length = (anyCloseMask m.lc m.width).count true := by
    rw [hlen, selectMask_length m.lc.time (anyCloseMask m.lc m.width) hml.symm]
  refine ⟨scatterMask (anyCloseMask m.lc m.width) (continuum [p.getD 0 0] m.lc.time) vals,
    ?_, ?_, ?_, ?_⟩
  · unfold evaluate
    rw [t_def, hev]
  · rw [scatterMask_length _ _ vals (by rw [hml, hcl]), hcl]
  · intro j hj
    rw [scatterMask_getD _ _ _ j (by rw [hml, hcl]) hvc]
    by_cases hb : (anyCloseMask m.lc m.width).getD j false = true
    · rw [if_pos hb, if_pos hb]
    · rw [if_neg hb, if_neg hb]
      unfold continuum
      rw [getD_map_lt (fun _ => ([p.getD 0 0] : List ℚ).getD 0 0) 0 m.lc.time j hj]
      simp
  · intro j hj
    rw [anyCloseMask_getD, List.any_eq_true]
    constructor
    · rintro ⟨i, hi, hf⟩
      rw [close_getD m.lc i m.width j hj, decide_eq_true_eq] at hf
      exact ⟨i, List.mem_range.mp hi, hf⟩
    · rintro ⟨i, hi, hlt⟩
      refine ⟨i, List.mem_range.mpr hi, ?_⟩
      rw [close_getD m.lc i m.width j hj, decide_eq_true_eq]
      exact hlt

/-- The unmasked times of the concrete light curve `exLc2`, through the
`time` accessor. -/
theorem exM2_time : exM2.lc.time = [0, 1] := rfl

/-- Witness for C2: on the concrete model `exM2`, the batch call covers
exactly the one near-transit time and `evaluate` scatters its output over
the continuum. -/
theorem c2_witness :
    exPEval.length = 5 + 6 * exM2.lc.n_planets
    ∧ exEnv.lc_eval (exPEval.drop 1)
        (selectMask exM2.lc.time (anyCloseMask exM2.lc exM2.width)) exM2.lc.texp
      = some [0]
    ∧ ([0] : List ℚ).length
        = (selectMask exM2.lc.time (anyCloseMask exM2.lc exM2.width)).length
    ∧ ∃ out, evaluate exEnv exM2 exPEval = some out
      ∧ out.length = exM2.lc.time.length
      ∧ (∀ j, j < exM2.lc.time.length →
          out.getD j 0 = if (anyCloseMask exM2.lc exM2.width).getD j false
            then ([0] : List ℚ).getD (((anyCloseMask exM2.lc exM2.width).take j).count true) 0
            else exPEval.getD 0 0)
      ∧ (∀ j, j < exM2.lc.time.length →
          ((anyCloseMask exM2.lc exM2.width).getD j false = true
            ↔ ∃ i, i < exM2.lc.n_planets
                ∧ |t_folded (exM2.lc.time.getD j 0) (exM2.lc.planets.getD i default).period
                      (exM2.lc.planets.getD i default).epoch|
                  < exM2.width * (exM2.lc.planets.getD i default).duration)) := by
  have hsel : selectMask exM2.lc.time (anyCloseMask exM2.lc exM2.width) = [0] := by
    rw [exM2_time, exM2_mask]
    rfl
  have hev : exEnv.lc_eval (exPEval.drop 1)
      (selectMask exM2.lc.time (anyCloseMask exM2.lc exM2.width)) exM2.lc.texp = some [0] := by
    rw [hsel]
    rfl
  have hlen : ([0] : List ℚ).length
      = (selectMask exM2.lc.time (anyCloseMask exM2.lc exM2.width)).length := by
    rw [hsel]
  exact ⟨rfl, hev, hlen, c2_evaluate_transit_windows exEnv exM2 exPEval [0] rfl hev hlen⟩

end TransitFit
